import Mathlib

/-!
Shallow embedding of src/networks.py (cyclegan-pix2pix-keras).

The repository is glue code that assembles Keras layer graphs. We embed each
construction function as a Lean function that records, in source order, the
layers it creates, and that reproduces the Python-level control and data flow
(string dispatch, the use_bias computation, loop bounds, the values bound to
each local variable). The external framework (Keras/NumPy) is modelled as
accepting every layer-constructor call and recording its arguments; framework
internal argument validation (e.g. tuple arities, activation deserialization)
is outside the scope of this embedding. What IS modelled of the runtime is the
repository-level data flow: applying something that is not a layer-callable to
a value, or using a layer object where a tensor is expected, is an error, and
Python's range() raising TypeError on a float bound is modelled, because
claims depend on those behaviours.

Environment inputs that the source reads globally are explicit parameters:
`fmt` models backend.image_data_format() and `contrib` models whether the
keras_contrib package (the InstanceNormalization import) is available.

Bookkeeping: during construction the layer list is accumulated most-recent
first (cons), and each top-level builder reverses it on return, so the list a
builder returns is in construction order.
-/

namespace CycleGANNetworks

/-- Models backend.image_data_format(). -/
inductive DataFormat
  | channelsFirst
  | channelsLast
deriving DecidableEq, Repr

/-- Python float literals appearing in the source (0.2, 0.5) are carried
opaquely; no claim computes with them. -/
inductive PyFloat
  | lit (s : String)
deriving DecidableEq, Repr

/-- The value passed as a Keras activation argument: None, a string name, or
(at one buggy call site) a Python bool. -/
inductive ActArg
  | noneA
  | strA (s : String)
  | boolA (b : Bool)
deriving DecidableEq, Repr

/-- The two normalization layer classes the source can select. -/
inductive NormKind
  | batchK
  | instK
deriving DecidableEq, Repr

/-- A layer created during graph construction, with the arguments given at the
call site (defaults of the framework filled in where the source omits an
argument: Conv2D / Conv2DTranspose default strides=(1,1), padding='valid'
(samePad=false), use_bias=True, activation=None). -/
inductive Layer
  | inputL (shape : List Nat) (inputName : String)
  | conv2D (filters : Nat) (kernel : Nat × Nat) (strides : Nat × Nat)
      (samePad : Bool) (useBias : Bool) (activation : ActArg)
  | conv2DT (filters : Nat) (kernel : Nat × Nat) (strides : Nat × Nat)
      (samePad : Bool) (useBias : Bool)
  | normL (kind : NormKind) (axis : Int)
  | leakyReLU (alpha : PyFloat)
  | dropoutL (rate : PyFloat)
  | zeroPad2D (padding : List Nat)
  | activationL (s : String)
  | concatL (axis : Int)
  | addL
deriving DecidableEq, Repr

/-- Python exceptions that the embedded code can raise. -/
inductive PyErr
  | notImplementedError (msg : String)
  | importError (msg : String)
  | typeError (msg : String)
deriving DecidableEq, Repr

/-- What get_norm_layer returns: a layer class, or (for an unrecognized name)
a NotImplementedError exception VALUE (the source returns it, line 24, rather
than raising it). -/
inductive NormResult
  | batchC
  | instC
  | notImpl (msg : String)
deriving DecidableEq, Repr

/-- The layer class a NormResult denotes, when it denotes one. -/
def NormResult.kindOf : NormResult → Option NormKind
  | .batchC => some .batchK
  | .instC => some .instK
  | .notImpl _ => none

/-- networks.py lines 13-24. `contrib` models whether the
`from keras_contrib.layers import InstanceNormalization` import succeeds. -/
def get_norm_layer (contrib : Bool) (layer_name : String) : Except PyErr NormResult :=
  if layer_name == "batch" then
    .ok .batchC
  else if layer_name == "instance" then
    if contrib then
      .ok .instC
    else
      .error (.importError "keras_contrib is required to use InstanceNormalization layers.")
  else
    .ok (.notImpl ("Normalization layer name [" ++ layer_name ++ "] is not recognized."))

/-- A Python value flowing through the functional-API construction code:
a symbolic tensor, or a bare layer object (which appears when the source
forgets to apply a layer, networks.py line 168). -/
inductive Value
  | tensor
  | layerObj (l : Layer)
deriving DecidableEq, Repr

/-- input_shape computation, networks.py lines 65-66 / 118-119 / 193-194. -/
def input_shape (fmt : DataFormat) (patch_size : List Nat) (nc : Nat) : List Nat :=
  match fmt with
  | .channelsFirst => nc :: patch_size
  | .channelsLast => patch_size ++ [nc]

/-- channel_axis computation, networks.py lines 67 / 120 / 195. -/
def channel_axis (fmt : DataFormat) : Int :=
  match fmt with
  | .channelsFirst => 1
  | .channelsLast => -1

/-- Applying a freshly-constructed layer to a value: on a tensor it records the
layer in the graph accumulator and yields a new tensor; applied to a bare layer
object it raises, as Keras layer calls require tensor inputs. -/
def applyLayer (l : Layer) (v : Value) (g : List Layer) :
    Except PyErr (Value × List Layer) :=
  match v with
  | .tensor => .ok (.tensor, l :: g)
  | .layerObj _ => .error (.typeError "Layer.call expects tensor inputs, got a Layer object")

/-- Applying a layer that takes a list of inputs (Add, concatenate). -/
def applyMulti (l : Layer) (vs : List Value) (g : List Layer) :
    Except PyErr (Value × List Layer) :=
  if vs.all (fun v => v == Value.tensor) then
    .ok (.tensor, l :: g)
  else
    .error (.typeError "Layer.call expects tensor inputs, got a Layer object")

/-- Calling the value held by the norm_layer variable: a layer class yields a
normalization layer; the NotImplementedError value returned for unrecognized
names is not callable, so calling it raises. -/
def normCall (n : NormResult) (axis : Int) (v : Value) (g : List Layer) :
    Except PyErr (Value × List Layer) :=
  match n with
  | .batchC => applyLayer (.normL .batchK axis) v g
  | .instC => applyLayer (.normL .instK axis) v g
  | .notImpl _ => .error (.typeError "NotImplementedError object is not callable")

/-- Sequential-model variant of normCall (model.add(norm_layer(axis=...))). -/
def seqNorm (n : NormResult) (axis : Int) (g : List Layer) :
    Except PyErr (List Layer) :=
  match n with
  | .batchC => .ok (Layer.normL .batchK axis :: g)
  | .instC => .ok (Layer.normL .instK axis :: g)
  | .notImpl _ => .error (.typeError "NotImplementedError object is not callable")

/-- networks.py lines 61-109 (build_unet). The loop `for i in range(1, n_levels - 1)`
is the list List.range' 1 (n_levels - 2); nodes_for_concat collects the encoder
outputs exactly as the source does. In the decoder loop the source line 96
calls keras.layers.concatenate(norm, [nodes_for_concat[i]], axis=channel_axis):
the positional parameters of concatenate are (inputs, axis), so axis is
received twice and the call raises; this branch is reached only when autoencoder is
False (build_generator_model always leaves it True). -/
def build_unet (fmt : DataFormat) (contrib : Bool) (patch_size : List Nat)
    (input_nc output_nc init_num_filters : Nat) (norm_name : String)
    (n_levels : Nat) (use_dropout : Bool) (dropout_rate : PyFloat)
    (autoencoder : Bool) : Except PyErr (List Layer) := do
  let kernel_size : Nat × Nat := (4, 4)
  let inShape := input_shape fmt patch_size input_nc
  let ax := channel_axis fmt
  let use_bias := norm_name == "instance"
  let norm_layer ← get_norm_layer contrib norm_name
  let g : List Layer := [Layer.inputL inShape "input1"]
  let input_img : Value := .tensor
  let (prev, g) ← applyLayer
    (.conv2D init_num_filters kernel_size (2, 2) true use_bias .noneA) input_img g
  let nodes_for_concat : List Value := [prev]
  -- for i in range(1, n_levels - 1): encoder, lines 77-82
  let (prev, nodes_for_concat, g) ←
    (List.range' 1 (n_levels - 2)).foldlM
      (fun (st : Value × List Value × List Layer) i => do
        let (prev, nodes, g) := st
        let (relu, g) ← applyLayer (.leakyReLU (.lit "0.2")) prev g
        let (conv, g) ← applyLayer
          (.conv2D (init_num_filters * max (2 ^ i) 8) kernel_size (2, 2) true use_bias .noneA)
          relu g
        let (prev, g) ← normCall norm_layer ax conv g
        .ok (prev, nodes ++ [prev], g))
      (prev, nodes_for_concat, g)
  -- bottleneck, lines 84-89; note the source computes max(2 ** n_levels - 1, 8)
  -- and max(2 ** n_levels - 2, 8) (subtraction binds outside the power)
  let (relu, g) ← applyLayer (.leakyReLU (.lit "0.2")) prev g
  let (conv, g) ← applyLayer
    (.conv2D (init_num_filters * max (2 ^ n_levels - 1) 8) kernel_size (2, 2) true use_bias .noneA)
    relu g
  let (relu, g) ← applyLayer (.activationL "relu") conv g
  let (deconv, g) ← applyLayer
    (.conv2DT (init_num_filters * max (2 ^ n_levels - 2) 8) kernel_size (2, 2) true use_bias)
    relu g
  -- for i in reversed(range(1, n_levels - 1)): decoder, lines 91-99
  let (deconv, g) ←
    (List.range' 1 (n_levels - 2)).reverse.foldlM
      (fun (st : Value × List Layer) i => do
        let (deconv, g) := st
        let (norm, g) ← normCall norm_layer ax deconv g
        let (norm, g) ←
          if use_dropout then applyLayer (.dropoutL dropout_rate) norm g else .ok (norm, g)
        let (norm, g) ←
          if autoencoder then .ok (norm, g)
          else .error (PyErr.typeError "concatenate() got multiple values for argument axis")
        let (relu, g) ← applyLayer (.activationL "relu") norm g
        applyLayer
          (.conv2DT (init_num_filters * max (2 ^ i) 8) kernel_size (2, 2) true use_bias)
          relu g)
      (deconv, g)
  -- outermost level, lines 101-107; line 103 concatenates with the first
  -- encoder output (a well-formed concatenate([...], axis=...) call)
  let (norm, g) ← normCall norm_layer ax deconv g
  let (norm, g) ←
    if autoencoder then .ok (norm, g)
    else applyMulti (.concatL ax) [norm, nodes_for_concat.headD .tensor] g
  let (relu, g) ← applyLayer (.activationL "relu") norm g
  let (conv, g) ← applyLayer
    (.conv2D output_nc kernel_size (2, 2) true use_bias .noneA) relu g
  let (_act, g) ← applyLayer (.activationL "tanh") conv g
  .ok g.reverse

/-- The result of a generator-building function: a built model (its layer list
in construction order), or — for build_resnet with an unsupported padding
name, line 128 — a returned (not raised) NotImplementedError value. -/
inductive GenOut
  | model (g : List Layer)
  | errVal (msg : String)
deriving DecidableEq, Repr

/-- networks.py lines 160-174 (build_conv_block). padding_layer is always
ZeroPadding2D when this function is reached (build_resnet returns early for
any other padding name). Line 168 of the source reads
`act = Dropout(dropout_rate)` — the Dropout layer is constructed but never
applied, so act becomes the bare layer object; the next padding call then
receives a layer object instead of a tensor. -/
def build_conv_block (previous : Value) (num_filters : Nat) (kernel : Nat × Nat)
    (norm_layer : NormResult) (ax : Int) (use_dropout : Bool)
    (dropout_rate : PyFloat) (use_bias : Bool) (g : List Layer) :
    Except PyErr (Value × List Layer) := do
  let (pad, g) ← applyLayer (.zeroPad2D [1, 1, 1, 1]) previous g
  let (conv, g) ← applyLayer (.conv2D num_filters kernel (1, 1) false use_bias .noneA) pad g
  let (norm, g) ← normCall norm_layer ax conv g
  let (act, g) ← applyLayer (.activationL "relu") norm g
  let act := if use_dropout then Value.layerObj (.dropoutL dropout_rate) else act
  let (pad, g) ← applyLayer (.zeroPad2D [1, 1, 1, 1]) act g
  let (conv, g) ← applyLayer (.conv2D num_filters kernel (1, 1) false use_bias .noneA) pad g
  let (norm, g) ← normCall norm_layer ax conv g
  applyMulti .addL [previous, norm] g

/-- networks.py lines 112-157 (build_resnet). outer_padding_size is
(ceil((7-1)/2), floor((7-1)/2), ceil((7-1)/2), floor((7-1)/2)) = (3,3,3,3).
The two stride-2 downsampling Conv2D calls (line 138) and the stride-2
Conv2DTranspose calls (line 147) pass no use_bias, so the framework default
(bias enabled) applies; note the upsampling loop iterates over
reversed(range(n_blocks)), not range(n_downsamples). -/
def build_resnet (fmt : DataFormat) (contrib : Bool) (patch_size : List Nat)
    (input_nc output_nc init_num_filters : Nat) (norm_name : String)
    (padding_name : String) (n_blocks : Nat) (use_dropout : Bool)
    (dropout_rate : PyFloat) : Except PyErr GenOut := do
  let outer_kernel_size : Nat × Nat := (7, 7)
  let outer_padding_size : List Nat := [3, 3, 3, 3]
  let kernel_size : Nat × Nat := (3, 3)
  let inShape := input_shape fmt patch_size input_nc
  let ax := channel_axis fmt
  let use_bias := norm_name == "instance"
  let norm_layer ← get_norm_layer contrib norm_name
  if padding_name == "zero" then
    let g : List Layer := [Layer.inputL inShape "input1"]
    let input_img : Value := .tensor
    let (pad, g) ← applyLayer (.zeroPad2D outer_padding_size) input_img g
    let (conv, g) ← applyLayer
      (.conv2D init_num_filters outer_kernel_size (1, 1) false use_bias .noneA) pad g
    let (norm, g) ← normCall norm_layer ax conv g
    let (act, g) ← applyLayer (.activationL "relu") norm g
    let n_downsamples : Nat := 2
    -- for i in range(n_downsamples), lines 137-140; use_bias not passed
    let (act, g) ←
      (List.range n_downsamples).foldlM
        (fun (st : Value × List Layer) i => do
          let (act, g) := st
          let (conv, g) ← applyLayer
            (.conv2D (init_num_filters * 2 ^ (i + 1)) kernel_size (2, 2) true true .noneA)
            act g
          let (norm, g) ← normCall norm_layer ax conv g
          applyLayer (.activationL "relu") norm g)
        (act, g)
    -- for i in range(n_blocks), lines 142-144
    let (act, g) ←
      (List.range n_blocks).foldlM
        (fun (st : Value × List Layer) _ => do
          let (act, g) := st
          build_conv_block act (init_num_filters * 2 ^ n_downsamples) kernel_size
            norm_layer ax use_dropout dropout_rate use_bias g)
        (act, g)
    -- for i in reversed(range(n_blocks)), lines 146-149; use_bias not passed
    let (act, g) ←
      (List.range n_blocks).reverse.foldlM
        (fun (st : Value × List Layer) i => do
          let (act, g) := st
          let (conv, g) ← applyLayer
            (.conv2DT (init_num_filters * 2 ^ (i + 1)) kernel_size (2, 2) true true)
            act g
          let (norm, g) ← normCall norm_layer ax conv g
          applyLayer (.activationL "relu") norm g)
        (act, g)
    let (pad, g) ← applyLayer (.zeroPad2D outer_padding_size) act g
    let (conv, g) ← applyLayer
      (.conv2D output_nc outer_kernel_size (1, 1) false use_bias .noneA) pad g
    let (_act, g) ← applyLayer (.activationL "tanh") conv g
    .ok (.model g.reverse)
  else
    .ok (.errVal "Only zero padding is currently supported.")

/-- networks.py lines 27-45 (build_generator_model). The unet branches pass
n_levels 7 and 8; the resnet branches leave padding_layer at its default
(zero) and pass n_blocks 6 and 9; any other name raises NotImplementedError. -/
def build_generator_model (fmt : DataFormat) (contrib : Bool) (patch_size : List Nat)
    (input_nc output_nc init_num_filters : Nat) (model_name norm_name : String)
    (use_dropout : Bool) : Except PyErr GenOut :=
  if model_name == "unet_128" then
    GenOut.model <$>
      build_unet fmt contrib patch_size input_nc output_nc init_num_filters norm_name
        7 use_dropout (.lit "0.5") true
  else if model_name == "unet_256" then
    GenOut.model <$>
      build_unet fmt contrib patch_size input_nc output_nc init_num_filters norm_name
        8 use_dropout (.lit "0.5") true
  else if model_name == "resnet_6blocks" then
    build_resnet fmt contrib patch_size input_nc output_nc init_num_filters norm_name
      "zero" 6 use_dropout (.lit "0.5")
  else if model_name == "resnet_9blocks" then
    build_resnet fmt contrib patch_size input_nc output_nc init_num_filters norm_name
      "zero" 9 use_dropout (.lit "0.5")
  else
    .error (.notImplementedError
      ("Generator model name [" ++ model_name ++ "] is not recognized"))

/-- A Python number as far as the discriminator code distinguishes them: an
int, or a float (np.log2 always yields a floating-point scalar; only its
floatness matters to the embedded control flow, so its value is not kept). -/
inductive PyNum
  | intV (i : Int)
  | floatV
deriving DecidableEq, Repr

/-- Modelled from the behaviour of numpy: np.log2 applied to a Python int
returns a numpy float64 scalar, for every argument. -/
def np_log2 (_x : Nat) : PyNum := .floatV

/-- range(1, stop): for an int stop this is the list 1, ..., stop-1; for a
float stop Python raises TypeError before the loop body ever runs. -/
def pyRange1 (stop : PyNum) : Except PyErr (List Int) :=
  match stop with
  | .intV i => .ok ((List.range' 1 (i - 1).toNat).map Int.ofNat)
  | .floatV => .error (.typeError "float object cannot be interpreted as an integer")

/-- networks.py lines 177-187 (build_pixel_gan). All three convolutions use
1x1 kernels and receive use_bias; the final convolution has
init_num_filters * 2 filters and receives the final_activation argument of
this function (at the only call site, line 201, that argument is the raw
use_sigmoid bool). -/
def build_pixel_gan (inShape : List Nat) (init_num_filters : Nat)
    (norm_layer : NormResult) (ax : Int) (use_bias : Bool)
    (final_activation : ActArg) : Except PyErr (List Layer) := do
  let g : List Layer := [Layer.inputL inShape ""]
  let g := Layer.conv2D init_num_filters (1, 1) (1, 1) true use_bias .noneA :: g
  let g := Layer.leakyReLU (.lit "0.2") :: g
  let g := Layer.conv2D (init_num_filters * 2) (1, 1) (1, 1) true use_bias .noneA :: g
  let g ← seqNorm norm_layer ax g
  let g := Layer.leakyReLU (.lit "0.2") :: g
  let g := Layer.conv2D (init_num_filters * 2) (1, 1) (1, 1) true use_bias final_activation :: g
  .ok g.reverse

/-- Body of the discriminator loop `for n in range(1, n_layers)`,
networks.py lines 210-216. -/
def dBody (init_num_filters : Nat) (use_bias : Bool) (norm_layer : NormResult)
    (ax : Int) (use_dropout : Bool) (dropout_rate : PyFloat)
    (g : List Layer) (n : Int) : Except PyErr (List Layer) := do
  let g := Layer.conv2D (init_num_filters * min (2 ^ n.toNat) 8) (4, 4) (2, 2)
    true use_bias .noneA :: g
  let g ← seqNorm norm_layer ax g
  let g := if use_dropout then Layer.dropoutL dropout_rate :: g else g
  .ok (Layer.leakyReLU (.lit "0.2") :: g)

/-- networks.py lines 190-224 (build_nlayer_discriminator). For n_layers == 0
it returns build_pixel_gan, passing the raw use_sigmoid bool where the
final_activation parameter belongs (line 201); for n_layers == -1 it rebinds
the loop bound to np.log2(patch_size[0]), a float. The final convolution
(line 222) passes neither strides nor use_bias, so the framework defaults
(strides (1,1), bias enabled) apply. For n_layers below -1 the source would
compute a float filter count at line 218 (2 ** negative int); no claim
touches that region and the exponent is embedded as n_layers.toNat. -/
def build_nlayer_discriminator (fmt : DataFormat) (contrib : Bool)
    (patch_size : List Nat) (input_nc init_num_filters : Nat) (n_layers : Int)
    (norm_name : String) (use_sigmoid use_dropout : Bool)
    (dropout_rate : PyFloat) : Except PyErr (List Layer) := do
  let kernel_size : Nat × Nat := (4, 4)
  let inShape := input_shape fmt patch_size input_nc
  let ax := channel_axis fmt
  let use_bias := norm_name == "instance"
  let norm_layer ← get_norm_layer contrib norm_name
  let final_activation : ActArg := if use_sigmoid then .strA "sigmoid" else .noneA
  if n_layers == 0 then
    build_pixel_gan inShape init_num_filters norm_layer ax use_bias (.boolA use_sigmoid)
  else
    let nl : PyNum :=
      if n_layers == -1 then np_log2 (patch_size.headD 0) else .intV n_layers
    let g : List Layer := [Layer.inputL inShape ""]
    let g := Layer.conv2D init_num_filters kernel_size (2, 2) true use_bias .noneA :: g
    let g := Layer.leakyReLU (.lit "0.2") :: g
    let ns ← pyRange1 nl
    let g ← ns.foldlM (dBody init_num_filters use_bias norm_layer ax use_dropout dropout_rate) g
    let g := Layer.conv2D (init_num_filters * min (2 ^ n_layers.toNat) 8)
      kernel_size (1, 1) true use_bias .noneA :: g
    let g ← seqNorm norm_layer ax g
    let g := Layer.leakyReLU (.lit "0.2") :: g
    .ok (Layer.conv2D 1 kernel_size (1, 1) true true final_activation :: g).reverse

/-- networks.py lines 48-54 (build_discriminator_model): delegates to
build_nlayer_discriminator, leaving use_dropout and dropout_rate at the
defaults of that function (False, 0.5). -/
def build_discriminator_model (fmt : DataFormat) (contrib : Bool)
    (patch_size : List Nat) (input_nc init_num_filters : Nat) (n_layers : Int)
    (norm_name : String) (use_sigmoid : Bool) : Except PyErr (List Layer) :=
  build_nlayer_discriminator fmt contrib patch_size input_nc init_num_filters
    n_layers norm_name use_sigmoid false (.lit "0.5")

/-! Observations on built graphs, used to state the claims. -/

/-- Number of concatenate layers in a graph. -/
def countConcat (g : List Layer) : Nat :=
  (g.filter fun l => match l with | .concatL _ => true | _ => false).length

/-- Number of stride-2 Conv2D (downsampling) layers in a graph. -/
def countDown2 (g : List Layer) : Nat :=
  (g.filter fun l => match l with
    | .conv2D _ _ s _ _ _ => s == ((2 : Nat), (2 : Nat))
    | _ => false).length

/-- Number of stride-2 Conv2DTranspose (upsampling) layers in a graph. -/
def countUp2 (g : List Layer) : Nat :=
  (g.filter fun l => match l with
    | .conv2DT _ _ s _ _ => s == ((2 : Nat), (2 : Nat))
    | _ => false).length

/-- Filter counts of the Conv2D layers of a graph, in order. -/
def convFilters (g : List Layer) : List Nat :=
  g.filterMap fun l => match l with | .conv2D f _ _ _ _ _ => some f | _ => none

/-- use_bias flags of the Conv2D and Conv2DTranspose layers of a graph, in order. -/
def convBias (g : List Layer) : List Bool :=
  g.filterMap fun l => match l with
    | .conv2D _ _ _ _ b _ => some b
    | .conv2DT _ _ _ _ b => some b
    | _ => none

/-- Kernel sizes of the Conv2D layers of a graph, in order. -/
def convKernels (g : List Layer) : List (Nat × Nat) :=
  g.filterMap fun l => match l with | .conv2D _ k _ _ _ _ => some k | _ => none

/-- Kinds of the normalization layers of a graph, in order. -/
def normKinds (g : List Layer) : List NormKind :=
  g.filterMap fun l => match l with | .normL k _ => some k | _ => none

/-- The normalization name is recognized and selects the given layer kind. -/
def normPair (norm_name : String) (k : NormKind) : Prop :=
  (norm_name = "batch" ∧ k = .batchK) ∨ (norm_name = "instance" ∧ k = .instK)

set_option maxHeartbeats 1600000

/-- Claim C1: for both supported U-Net names and every hyperparameter
combination with a recognized normalization, build_generator_model returns a
graph containing ZERO concatenate layers: build_generator_model leaves the
autoencoder flag of build_unet at its default True, so the decoder is never
concatenated with the encoder features (no skip connections). -/
theorem unet_generator_has_no_skip_connections (fmt : DataFormat)
    (patch_size : List Nat) (input_nc output_nc init_num_filters : Nat)
    (use_dropout : Bool) (model_name norm_name : String)
    (hm : model_name = "unet_128" ∨ model_name = "unet_256")
    (hn : norm_name = "batch" ∨ norm_name = "instance") :
    ∃ g, build_generator_model fmt true patch_size input_nc output_nc
        init_num_filters model_name norm_name use_dropout = .ok (.model g) ∧
      countConcat g = 0 := by
  rcases hm with rfl | rfl <;> rcases hn with rfl | rfl <;> cases use_dropout <;>
    exact ⟨_, rfl, rfl⟩

/-- Witness for the skip-connection theorem at a concrete input. -/
theorem unet_generator_has_no_skip_connections_witness :
    ∃ g, build_generator_model .channelsLast true [128, 128] 3 3 64
        "unet_128" "batch" false = .ok (.model g) ∧ countConcat g = 0 :=
  unet_generator_has_no_skip_connections .channelsLast [128, 128] 3 3 64 false
    "unet_128" "batch" (Or.inl rfl) (Or.inl rfl)

/-- Claim C2: the resnet generators do NOT have as many stride-2 upsampling
stages as stride-2 downsampling stages: the upsampling loop runs over
range(n_blocks), so the built graph has 2 stride-2 Conv2D layers but 6
(resp. 9) stride-2 Conv2DTranspose layers. -/
theorem resnet_upsample_count_exceeds_downsample_count (fmt : DataFormat)
    (patch_size : List Nat) (input_nc output_nc init_num_filters : Nat)
    (norm_name : String) (hn : norm_name = "batch" ∨ norm_name = "instance") :
    (∃ g, build_generator_model fmt true patch_size input_nc output_nc
        init_num_filters "resnet_6blocks" norm_name false = .ok (.model g) ∧
      countDown2 g = 2 ∧ countUp2 g = 6) ∧
    (∃ g, build_generator_model fmt true patch_size input_nc output_nc
        init_num_filters "resnet_9blocks" norm_name false = .ok (.model g) ∧
      countDown2 g = 2 ∧ countUp2 g = 9) := by
  rcases hn with rfl | rfl <;> exact ⟨⟨_, rfl, rfl, rfl⟩, ⟨_, rfl, rfl, rfl⟩⟩

/-- Witness for the resnet stage-count theorem at a concrete input. -/
theorem resnet_upsample_count_exceeds_downsample_count_witness :
    (∃ g, build_generator_model .channelsLast true [256, 256] 3 3 64
        "resnet_6blocks" "batch" false = .ok (.model g) ∧
      countDown2 g = 2 ∧ countUp2 g = 6) ∧
    (∃ g, build_generator_model .channelsLast true [256, 256] 3 3 64
        "resnet_9blocks" "batch" false = .ok (.model g) ∧
      countDown2 g = 2 ∧ countUp2 g = 9) :=
  resnet_upsample_count_exceeds_downsample_count .channelsLast [256, 256] 3 3 64
    "batch" (Or.inl rfl)

/-- Claim C3: with use_dropout=True the resnet generators fail to build — in
build_conv_block the source binds `act = Dropout(dropout_rate)` without
applying the layer, and the following ZeroPadding2D call receives a layer
object instead of a tensor — while both U-Net generators do build with
dropout enabled. -/
theorem resnet_with_dropout_fails_to_build (fmt : DataFormat)
    (patch_size : List Nat) (input_nc output_nc init_num_filters : Nat)
    (norm_name : String) (hn : norm_name = "batch" ∨ norm_name = "instance") :
    (build_generator_model fmt true patch_size input_nc output_nc
        init_num_filters "resnet_6blocks" norm_name true =
      .error (.typeError "Layer.call expects tensor inputs, got a Layer object")) ∧
    (build_generator_model fmt true patch_size input_nc output_nc
        init_num_filters "resnet_9blocks" norm_name true =
      .error (.typeError "Layer.call expects tensor inputs, got a Layer object")) ∧
    (∃ g, build_generator_model fmt true patch_size input_nc output_nc
        init_num_filters "unet_128" norm_name true = .ok (.model g)) ∧
    (∃ g, build_generator_model fmt true patch_size input_nc output_nc
        init_num_filters "unet_256" norm_name true = .ok (.model g)) := by
  rcases hn with rfl | rfl <;> exact ⟨rfl, rfl, ⟨_, rfl⟩, ⟨_, rfl⟩⟩

/-- Witness for the resnet-dropout failure theorem at a concrete input. -/
theorem resnet_with_dropout_fails_to_build_witness :
    (build_generator_model .channelsLast true [256, 256] 3 3 64
        "resnet_6blocks" "batch" true =
      .error (.typeError "Layer.call expects tensor inputs, got a Layer object")) ∧
    (build_generator_model .channelsLast true [256, 256] 3 3 64
        "resnet_9blocks" "batch" true =
      .error (.typeError "Layer.call expects tensor inputs, got a Layer object")) ∧
    (∃ g, build_generator_model .channelsLast true [256, 256] 3 3 64
        "unet_128" "batch" true = .ok (.model g)) ∧
    (∃ g, build_generator_model .channelsLast true [256, 256] 3 3 64
        "unet_256" "batch" true = .ok (.model g)) :=
  resnet_with_dropout_fails_to_build .channelsLast [256, 256] 3 3 64 "batch"
    (Or.inl rfl)

/-- Claim C5: the pixel-GAN branch (n_layers = 0) builds a model whose
convolutions all use 1x1 kernels, but whose final convolution has
init_num_filters * 2 output channels (not 1) and whose activation argument is
the raw use_sigmoid bool (build_nlayer_discriminator passes use_sigmoid where
the final_activation parameter of build_pixel_gan belongs). -/
theorem pixel_gan_final_conv_wrong_channels_and_activation (fmt : DataFormat)
    (patch_size : List Nat) (input_nc init_num_filters : Nat)
    (use_sigmoid : Bool) (norm_name : String)
    (hn : norm_name = "batch" ∨ norm_name = "instance") :
    ∃ g, build_discriminator_model fmt true patch_size input_nc
        init_num_filters 0 norm_name use_sigmoid = .ok g ∧
      g.getLast? = some (.conv2D (init_num_filters * 2) (1, 1) (1, 1) true
        (norm_name == "instance") (.boolA use_sigmoid)) ∧
      (∀ k ∈ convKernels g, k = (1, 1)) := by
  rcases hn with rfl | rfl <;>
    exact ⟨_, rfl, rfl, by simp [convKernels]⟩

/-- Witness for the pixel-GAN theorem at a concrete input. -/
theorem pixel_gan_final_conv_wrong_channels_and_activation_witness :
    ∃ g, build_discriminator_model .channelsLast true [256, 256] 3 64 0
        "batch" true = .ok g ∧
      g.getLast? = some (.conv2D (64 * 2) (1, 1) (1, 1) true
        ("batch" == "instance") (.boolA true)) ∧
      (∀ k ∈ convKernels g, k = (1, 1)) :=
  pixel_gan_final_conv_wrong_channels_and_activation .channelsLast [256, 256]
    3 64 true "batch" (Or.inl rfl)

/-- Claim C8: get_norm_layer returns (rather than raises) a
NotImplementedError value for every unrecognized normalization name, and
build_resnet returns (rather than raises) a NotImplementedError value for
every padding name other than zero. -/
theorem unsupported_names_return_error_values :
    (∀ (contrib : Bool) (layer_name : String),
      layer_name ≠ "batch" → layer_name ≠ "instance" →
      get_norm_layer contrib layer_name =
        .ok (.notImpl ("Normalization layer name [" ++ layer_name ++
          "] is not recognized."))) ∧
    (∀ (fmt : DataFormat) (patch_size : List Nat)
      (input_nc output_nc init_num_filters : Nat)
      (norm_name padding_name : String) (n_blocks : Nat)
      (use_dropout : Bool) (dropout_rate : PyFloat), padding_name ≠ "zero" →
      build_resnet fmt true patch_size input_nc output_nc init_num_filters
          norm_name padding_name n_blocks use_dropout dropout_rate =
        .ok (.errVal "Only zero padding is currently supported.")) := by
  constructor
  · intro contrib layer_name h1 h2
    have e1 : (layer_name == "batch") = false := beq_eq_false_iff_ne.mpr h1
    have e2 : (layer_name == "instance") = false := beq_eq_false_iff_ne.mpr h2
    simp [get_norm_layer, e1, e2]
  · intro fmt ps inc onc nf norm pad nb ud rate hp
    have ep : (pad == "zero") = false := beq_eq_false_iff_ne.mpr hp
    by_cases h1 : norm = "batch"
    · subst h1; simp [build_resnet, get_norm_layer, ep]; rfl
    · by_cases h2 : norm = "instance"
      · subst h2; simp [build_resnet, get_norm_layer, ep]; rfl
      · have e1 : (norm == "batch") = false := beq_eq_false_iff_ne.mpr h1
        have e2 : (norm == "instance") = false := beq_eq_false_iff_ne.mpr h2
        simp [build_resnet, get_norm_layer, e1, e2, ep]; rfl

/-- Witness for the returned-error-value theorem at concrete inputs. -/
theorem unsupported_names_return_error_values_witness :
    get_norm_layer true "spectral" =
      .ok (.notImpl "Normalization layer name [spectral] is not recognized.") ∧
    build_resnet .channelsLast true [256, 256] 3 3 64 "batch" "reflect" 6
        false (.lit "0.5") =
      .ok (.errVal "Only zero padding is currently supported.") :=
  ⟨unsupported_names_return_error_values.1 true "spectral" (by decide) (by decide),
   unsupported_names_return_error_values.2 .channelsLast [256, 256] 3 3 64
     "batch" "reflect" 6 false (.lit "0.5") (by decide)⟩

/-- Claim C9: with n_layers = -1 the discriminator builder rebinds the loop
bound to np.log2(patch_size[0]) — a float — and range() then raises TypeError,
for every patch size, normalization name and sigmoid flag. -/
theorem discriminator_minus_one_layers_always_raises (fmt : DataFormat)
    (patch_size : List Nat) (input_nc init_num_filters : Nat)
    (norm_name : String) (use_sigmoid : Bool) :
    build_discriminator_model fmt true patch_size input_nc init_num_filters
        (-1) norm_name use_sigmoid =
      .error (.typeError "float object cannot be interpreted as an integer") := by
  by_cases h1 : norm_name = "batch"
  · subst h1; rfl
  · by_cases h2 : norm_name = "instance"
    · subst h2; rfl
    · have e1 : (norm_name == "batch") = false := beq_eq_false_iff_ne.mpr h1
      have e2 : (norm_name == "instance") = false := beq_eq_false_iff_ne.mpr h2
      simp [build_discriminator_model, build_nlayer_discriminator,
        get_norm_layer, e1, e2, pyRange1, np_log2]
      rfl

/-- The claim that build_generator_model returns a model for every supported
name is false as stated: at model_name = resnet_9blocks with use_dropout=True
it raises a TypeError (from the unapplied Dropout in build_conv_block)
instead of returning a model. -/
theorem generator_supported_name_not_sufficient_counterexample :
    build_generator_model .channelsLast true [256, 256] 3 3 64
        "resnet_9blocks" "batch" true =
      .error (.typeError "Layer.call expects tensor inputs, got a Layer object") :=
  rfl

/-- The name parameter dispatches to a builder exactly for the four supported
generator names; this amends the claim that a model comes back exactly for
those names: a NotImplementedError is raised iff the name is unsupported, and
a model comes back for supported names except the resnet names with
use_dropout=True (which fail on the unapplied Dropout in build_conv_block). -/
theorem generator_dispatch_amended (fmt : DataFormat) (patch_size : List Nat)
    (input_nc output_nc init_num_filters : Nat) (model_name norm_name : String)
    (use_dropout : Bool)
    (hn : norm_name = "batch" ∨ norm_name = "instance") :
    ((∃ m, build_generator_model fmt true patch_size input_nc output_nc
        init_num_filters model_name norm_name use_dropout =
          .error (.notImplementedError m)) ↔
      ¬(model_name = "unet_128" ∨ model_name = "unet_256" ∨
        model_name = "resnet_6blocks" ∨ model_name = "resnet_9blocks")) ∧
    ((model_name = "unet_128" ∨ model_name = "unet_256" ∨
        ((model_name = "resnet_6blocks" ∨ model_name = "resnet_9blocks") ∧
          use_dropout = false)) →
      ∃ g, build_generator_model fmt true patch_size input_nc output_nc
        init_num_filters model_name norm_name use_dropout = .ok (.model g)) := by
  constructor
  · constructor
    · rintro ⟨m, hm⟩ (rfl | rfl | rfl | rfl) <;> rcases hn with rfl | rfl <;>
        cases use_dropout <;>
        first
        | exact Except.noConfusion hm
        | (injection hm with h; exact PyErr.noConfusion h)
    · intro h4
      push_neg at h4
      obtain ⟨h1, h2, h3, h5⟩ := h4
      refine ⟨"Generator model name [" ++ model_name ++ "] is not recognized", ?_⟩
      simp [build_generator_model, beq_eq_false_iff_ne.mpr h1,
        beq_eq_false_iff_ne.mpr h2, beq_eq_false_iff_ne.mpr h3,
        beq_eq_false_iff_ne.mpr h5]
  · rintro (rfl | rfl | ⟨rfl | rfl, rfl⟩) <;> rcases hn with rfl | rfl <;>
      try (cases use_dropout)
    all_goals exact ⟨_, rfl⟩

/-- Witness for the dispatch theorem at a concrete input. -/
theorem generator_dispatch_amended_witness :
    ((∃ m, build_generator_model .channelsLast true [256, 256] 3 3 64
        "resnet_6blocks" "batch" false = .error (.notImplementedError m)) ↔
      ¬("resnet_6blocks" = "unet_128" ∨ "resnet_6blocks" = "unet_256" ∨
        "resnet_6blocks" = "resnet_6blocks" ∨ "resnet_6blocks" = "resnet_9blocks")) ∧
    (("resnet_6blocks" = "unet_128" ∨ "resnet_6blocks" = "unet_256" ∨
        (("resnet_6blocks" = "resnet_6blocks" ∨ "resnet_6blocks" = "resnet_9blocks") ∧
          false = false)) →
      ∃ g, build_generator_model .channelsLast true [256, 256] 3 3 64
        "resnet_6blocks" "batch" false = .ok (.model g)) :=
  generator_dispatch_amended .channelsLast [256, 256] 3 3 64 "resnet_6blocks"
    "batch" false (Or.inl rfl)

/-! Machinery for reasoning about the discriminator loop at a symbolic layer
count. -/

/-- The layers one iteration of the discriminator loop adds, in source order
(networks.py lines 210-216). -/
def dBlock (k : NormKind) (init_num_filters : Nat) (use_bias : Bool) (ax : Int)
    (use_dropout : Bool) (dropout_rate : PyFloat) (n : Int) : List Layer :=
  [Layer.conv2D (init_num_filters * min (2 ^ n.toNat) 8) (4, 4) (2, 2) true
     use_bias .noneA,
   Layer.normL k ax]
  ++ (if use_dropout then [Layer.dropoutL dropout_rate] else [])
  ++ [Layer.leakyReLU (.lit "0.2")]

/-- Bind of an ok value in the Except monad, as a rewrite rule. -/
theorem okBind {ε α β : Type} (a : α) (f : α → Except ε β) :
    ((Except.ok a : Except ε α) >>= f) = f a := rfl

/-- One loop iteration prepends the reversed block when the norm value is a
layer class. -/
theorem dBody_eq_ok (nr : NormResult) (k : NormKind) (hk : nr.kindOf = some k)
    (nf : Nat) (uB : Bool) (ax : Int) (ud : Bool) (rate : PyFloat)
    (g : List Layer) (n : Int) :
    dBody nf uB nr ax ud rate g n =
      .ok ((dBlock k nf uB ax ud rate n).reverse ++ g) := by
  cases nr <;> simp [NormResult.kindOf] at hk <;> subst hk <;> cases ud <;> rfl

/-- The whole loop prepends the reversed concatenation of the blocks. -/
theorem foldlM_dBody (nr : NormResult) (k : NormKind) (hk : nr.kindOf = some k)
    (nf : Nat) (uB : Bool) (ax : Int) (ud : Bool) (rate : PyFloat) :
    ∀ (ns : List Int) (g : List Layer),
      ns.foldlM (dBody nf uB nr ax ud rate) g =
        .ok ((ns.map (dBlock k nf uB ax ud rate)).flatten.reverse ++ g) := by
  intro ns
  induction ns with
  | nil => intro g; rfl
  | cons n ns ih =>
    intro g
    rw [List.foldlM_cons, dBody_eq_ok nr k hk, okBind, ih]
    simp [List.reverse_append, List.append_assoc]

/-- The graph build_nlayer_discriminator returns for an integer layer count
n_layers >= 1 and a recognized normalization, in construction order. -/
def nlayerGraph (inShape : List Nat) (init_num_filters : Nat) (use_bias : Bool)
    (k : NormKind) (ax : Int) (n_layers : Int) (use_dropout : Bool)
    (dropout_rate : PyFloat) (final_activation : ActArg) : List Layer :=
  [Layer.inputL inShape "",
   Layer.conv2D init_num_filters (4, 4) (2, 2) true use_bias .noneA,
   Layer.leakyReLU (.lit "0.2")]
  ++ (((List.range' 1 (n_layers - 1).toNat).map Int.ofNat).map
       (dBlock k init_num_filters use_bias ax use_dropout dropout_rate)).flatten
  ++ [Layer.conv2D (init_num_filters * min (2 ^ n_layers.toNat) 8) (4, 4) (1, 1)
        true use_bias .noneA,
      Layer.normL k ax,
      Layer.leakyReLU (.lit "0.2"),
      Layer.conv2D 1 (4, 4) (1, 1) true true final_activation]

/-- If build_nlayer_discriminator returns a graph for n_layers >= 1, the norm
name resolved to a layer class and the graph is nlayerGraph. -/
theorem nlayer_ok_inv (fmt : DataFormat) (contrib : Bool) (patch_size : List Nat)
    (input_nc init_num_filters : Nat) (n_layers : Int) (norm_name : String)
    (us ud : Bool) (rate : PyFloat) (g : List Layer) (hL : 1 ≤ n_layers)
    (hg : build_nlayer_discriminator fmt contrib patch_size input_nc
      init_num_filters n_layers norm_name us ud rate = .ok g) :
    ∃ (nr : NormResult) (k : NormKind),
      get_norm_layer contrib norm_name = .ok nr ∧ nr.kindOf = some k ∧
      g = nlayerGraph (input_shape fmt patch_size input_nc) init_num_filters
        (norm_name == "instance") k (channel_axis fmt) n_layers ud rate
        (if us then .strA "sigmoid" else .noneA) := by
  have h0 : (n_layers == (0 : Int)) = false := by
    simp only [beq_eq_false_iff_ne]; omega
  have h1 : (n_layers == (-1 : Int)) = false := by
    simp only [beq_eq_false_iff_ne]; omega
  unfold build_nlayer_discriminator at hg
  rw [h0, h1] at hg
  simp only [Bool.false_eq_true, if_false, pyRange1] at hg
  cases hnr : get_norm_layer contrib norm_name with
  | error e => rw [hnr] at hg; exact Except.noConfusion hg
  | ok nr =>
    rw [hnr] at hg
    cases nr with
    | notImpl msg =>
      cases hrange : List.range' 1 (n_layers - 1).toNat with
      | nil => rw [hrange] at hg; exact Except.noConfusion hg
      | cons a as => rw [hrange] at hg; exact Except.noConfusion hg
    | batchC =>
      refine ⟨.batchC, .batchK, rfl, rfl, ?_⟩
      rw [okBind] at hg
      rw [okBind, foldlM_dBody .batchC .batchK rfl, okBind] at hg
      simp only [seqNorm, okBind, Except.ok.injEq] at hg
      subst hg
      simp [nlayerGraph, List.reverse_append, List.append_assoc]
    | instC =>
      refine ⟨.instC, .instK, rfl, rfl, ?_⟩
      rw [okBind] at hg
      rw [okBind, foldlM_dBody .instC .instK rfl, okBind] at hg
      simp only [seqNorm, okBind, Except.ok.injEq] at hg
      subst hg
      simp [nlayerGraph, List.reverse_append, List.append_assoc]

/-- filterMap over a concatenation of blocks that each contribute one value. -/
theorem filterMap_flatten_blocks {α : Type} (p : Layer → Option α)
    (bl : Int → List Layer) (v : Int → α)
    (h : ∀ n, (bl n).filterMap p = [v n]) :
    ∀ ns : List Int, ((ns.map bl).flatten).filterMap p = ns.map v := by
  intro ns
  induction ns with
  | nil => rfl
  | cons n ns ih => simp [List.flatten_cons, List.filterMap_append, h, ih]

/-- Conv2D filter counts of the discriminator graph, in order. -/
theorem convFilters_nlayerGraph (inShape : List Nat) (nf : Nat) (uB : Bool)
    (k : NormKind) (ax : Int) (L : Int) (ud : Bool) (rate : PyFloat)
    (fa : ActArg) :
    convFilters (nlayerGraph inShape nf uB k ax L ud rate fa) =
      [nf] ++ (List.range' 1 (L - 1).toNat).map (fun n => nf * min (2 ^ n) 8)
        ++ [nf * min (2 ^ L.toNat) 8, 1] := by
  unfold nlayerGraph convFilters
  rw [List.filterMap_append, List.filterMap_append,
    filterMap_flatten_blocks _ _ (fun n => nf * min (2 ^ n.toNat) 8)
      (fun n => by cases ud <;> rfl)]
  simp [List.map_map, Function.comp]

/-- Convolution use_bias flags of the discriminator graph, in order. -/
theorem convBias_nlayerGraph (inShape : List Nat) (nf : Nat) (uB : Bool)
    (k : NormKind) (ax : Int) (L : Int) (ud : Bool) (rate : PyFloat)
    (fa : ActArg) :
    convBias (nlayerGraph inShape nf uB k ax L ud rate fa) =
      [uB] ++ (((List.range' 1 (L - 1).toNat).map Int.ofNat).map fun _ => uB)
        ++ [uB, true] := by
  unfold nlayerGraph convBias
  rw [List.filterMap_append, List.filterMap_append,
    filterMap_flatten_blocks _ _ (fun _ => uB) (fun n => by cases ud <;> rfl)]
  rfl

/-- Normalization kinds of the discriminator graph, in order. -/
theorem normKinds_nlayerGraph (inShape : List Nat) (nf : Nat) (uB : Bool)
    (k : NormKind) (ax : Int) (L : Int) (ud : Bool) (rate : PyFloat)
    (fa : ActArg) :
    normKinds (nlayerGraph inShape nf uB k ax L ud rate fa) =
      (((List.range' 1 (L - 1).toNat).map Int.ofNat).map fun _ => k) ++ [k] := by
  unfold nlayerGraph normKinds
  rw [List.filterMap_append, List.filterMap_append,
    filterMap_flatten_blocks _ _ (fun _ => k) (fun n => by cases ud <;> rfl)]
  rfl

/-- Last element of a cons-append list ending in a two-element literal. -/
theorem getLast?_cons_append_two {α : Type} (x a b : α) (l : List α) :
    (x :: (l ++ [a, b])).getLast? = some b := by
  have h : x :: (l ++ [a, b]) = (x :: (l ++ [a])) ++ [b] := by simp
  rw [h, List.getLast?_concat]

/-- Helper bound: a filter count of the form nf * min x 8 is at most 8 * nf. -/
theorem mul_min_le (nf x : Nat) : nf * min x 8 ≤ 8 * nf := by
  rw [Nat.mul_comm]
  exact Nat.mul_le_mul_right nf (min_le_right x 8)

/-- Claim C10: for integer n_layers >= 1, every model the discriminator
builder returns has conv filter counts init_num_filters * min(2^n, 8) at
depth n (so never more than 8 * init_num_filters before the final
convolution), and the final convolution outputs exactly one channel. -/
theorem discriminator_filter_counts (fmt : DataFormat) (contrib : Bool)
    (patch_size : List Nat) (input_nc init_num_filters : Nat) (n_layers : Int)
    (norm_name : String) (us ud : Bool) (rate : PyFloat) (g : List Layer)
    (hL : 1 ≤ n_layers)
    (hg : build_nlayer_discriminator fmt contrib patch_size input_nc
      init_num_filters n_layers norm_name us ud rate = .ok g) :
    convFilters g =
      (List.range n_layers.toNat).map (fun n => init_num_filters * min (2 ^ n) 8)
        ++ [init_num_filters * min (2 ^ n_layers.toNat) 8, 1] ∧
    (∀ f ∈ (convFilters g).dropLast, f ≤ 8 * init_num_filters) ∧
    (convFilters g).getLast? = some 1 := by
  obtain ⟨nr, k, hnr, hk, rfl⟩ := nlayer_ok_inv fmt contrib patch_size input_nc
    init_num_filters n_layers norm_name us ud rate g hL hg
  rw [convFilters_nlayerGraph]
  have hrange : List.range n_layers.toNat =
      0 :: List.range' 1 (n_layers - 1).toNat := by
    have h1 : n_layers.toNat = (n_layers - 1).toNat + 1 := by omega
    rw [List.range_eq_range', h1, List.range'_succ]
  refine ⟨?_, ?_, ?_⟩
  · rw [hrange]
    simp [Nat.mul_one]
  · intro f hf
    have hshape : [init_num_filters] ++
        (List.range' 1 (n_layers - 1).toNat).map
          (fun n => init_num_filters * min (2 ^ n) 8)
        ++ [init_num_filters * min (2 ^ n_layers.toNat) 8, 1] =
        ([init_num_filters] ++
          (List.range' 1 (n_layers - 1).toNat).map
            (fun n => init_num_filters * min (2 ^ n) 8)
          ++ [init_num_filters * min (2 ^ n_layers.toNat) 8]) ++ [1] := by
      simp
    rw [hshape, List.dropLast_concat] at hf
    simp only [List.mem_append, List.mem_singleton, List.mem_map] at hf
    rcases hf with (hf | ⟨n, _, hf⟩) | hf
    · rw [hf]; omega
    · rw [← hf]; exact mul_min_le _ _
    · rw [hf]; exact mul_min_le _ _
  · exact getLast?_cons_append_two _ _ _ _

/-- Witness for the filter-count theorem at a concrete input. -/
theorem discriminator_filter_counts_witness :
    ∃ g, build_nlayer_discriminator .channelsLast true [256, 256] 3 64 3
        "batch" false false (.lit "0.5") = .ok g ∧
      (convFilters g =
        (List.range (3 : Int).toNat).map (fun n => 64 * min (2 ^ n) 8)
          ++ [64 * min (2 ^ (3 : Int).toNat) 8, 1] ∧
      (∀ f ∈ (convFilters g).dropLast, f ≤ 8 * 64) ∧
      (convFilters g).getLast? = some 1) := by
  refine ⟨_, rfl, ?_⟩
  exact discriminator_filter_counts .channelsLast true [256, 256] 3 64 3
    "batch" false false (.lit "0.5") _ (by omega) rfl

/-- The claim that norm_layer='batch' disables convolution biases throughout
every built graph is false as stated: the discriminator built with 'batch'
still has use_bias=True on its final convolution (the source omits use_bias
there, so the framework default applies). -/
theorem norm_bias_claim_counterexample :
    ∃ g, build_discriminator_model .channelsLast true [256, 256] 3 64 3
        "batch" false = .ok g ∧ (convBias g).getLast? = some true :=
  ⟨_, rfl, rfl⟩

/-- Claim C6 amended: get_norm_layer maps batch / instance to the
corresponding layer classes (ImportError when keras_contrib is missing);
every normalization layer of the built graphs is the selected kind; the
use_bias = (norm == instance) flag is passed to every convolution of the
U-Net generators and to every convolution of the n-layer discriminator
except its final one, which uses the framework default (bias enabled); the
resnet generator also contains default-bias convolutions (its inner stride-2
convolutions). -/
theorem norm_selection_amended :
    (∀ contrib, get_norm_layer contrib "batch" = .ok .batchC) ∧
    get_norm_layer true "instance" = .ok .instC ∧
    (∃ msg, get_norm_layer false "instance" = .error (.importError msg)) ∧
    (∀ (fmt : DataFormat) (patch_size : List Nat)
      (input_nc output_nc init_num_filters : Nat)
      (model_name norm_name : String) (k : NormKind) (use_dropout : Bool),
      (model_name = "unet_128" ∨ model_name = "unet_256") →
      normPair norm_name k →
      ∃ g, build_generator_model fmt true patch_size input_nc output_nc
          init_num_filters model_name norm_name use_dropout = .ok (.model g) ∧
        (∀ b ∈ convBias g, b = (norm_name == "instance")) ∧
        (∀ q ∈ normKinds g, q = k)) ∧
    (∀ (fmt : DataFormat) (contrib : Bool) (patch_size : List Nat)
      (input_nc init_num_filters : Nat) (n_layers : Int) (norm_name : String)
      (k : NormKind) (us ud : Bool) (rate : PyFloat) (g : List Layer),
      normPair norm_name k → 1 ≤ n_layers →
      build_nlayer_discriminator fmt contrib patch_size input_nc
        init_num_filters n_layers norm_name us ud rate = .ok g →
      (∀ b ∈ (convBias g).dropLast, b = (norm_name == "instance")) ∧
      (convBias g).getLast? = some true ∧
      (∀ q ∈ normKinds g, q = k)) ∧
    (∃ g, build_generator_model .channelsLast true [256, 256] 3 3 64
        "resnet_6blocks" "batch" false = .ok (.model g) ∧ true ∈ convBias g) := by
  refine ⟨fun contrib => rfl, rfl, ⟨_, rfl⟩, ?_, ?_, ?_⟩
  · intro fmt ps inc onc nf name norm k dp hname hnp
    rcases hname with rfl | rfl <;> rcases hnp with ⟨rfl, rfl⟩ | ⟨rfl, rfl⟩ <;>
      cases dp <;> refine ⟨_, rfl, ?_, ?_⟩ <;> simp [convBias, normKinds]
  · intro fmt contrib ps inc nf L norm k us ud rate g hnp hL hg
    obtain ⟨nr, k', hnr, hk, rfl⟩ := nlayer_ok_inv fmt contrib ps inc nf L
      norm us ud rate g hL hg
    rcases hnp with ⟨rfl, rfl⟩ | ⟨rfl, rfl⟩
    · have hb : (Except.ok NormResult.batchC : Except PyErr NormResult) =
          .ok nr := hnr
      injection hb with hb
      subst hb
      simp only [NormResult.kindOf, Option.some.injEq] at hk
      subst hk
      refine ⟨?_, by rw [convBias_nlayerGraph]; exact getLast?_cons_append_two _ _ _ _, ?_⟩
      · intro b hb
        rw [convBias_nlayerGraph] at hb
        have hshape : ([("batch" == "instance")] ++
            (((List.range' 1 (L - 1).toNat).map Int.ofNat).map
              fun _ => ("batch" == "instance"))
            ++ [("batch" == "instance"), true]) =
            ([("batch" == "instance")] ++
              (((List.range' 1 (L - 1).toNat).map Int.ofNat).map
                fun _ => ("batch" == "instance"))
              ++ [("batch" == "instance")]) ++ [true] := by simp
        rw [hshape, List.dropLast_concat] at hb
        simp only [List.mem_append, List.mem_singleton, List.mem_map] at hb
        rcases hb with (hb | ⟨n, _, hb⟩) | hb <;> first | exact hb | exact hb.symm
      · intro q hq
        rw [normKinds_nlayerGraph] at hq
        simp only [List.mem_append, List.mem_singleton, List.mem_map] at hq
        rcases hq with ⟨n, _, hq⟩ | hq <;> first | exact hq | exact hq.symm
    · cases contrib with
      | false => exact Except.noConfusion hnr
      | true =>
        have hb : (Except.ok NormResult.instC : Except PyErr NormResult) =
            .ok nr := hnr
        injection hb with hb
        subst hb
        simp only [NormResult.kindOf, Option.some.injEq] at hk
        subst hk
        refine ⟨?_, by rw [convBias_nlayerGraph]; exact getLast?_cons_append_two _ _ _ _, ?_⟩
        · intro b hb
          rw [convBias_nlayerGraph] at hb
          have hshape : ([("instance" == "instance")] ++
              (((List.range' 1 (L - 1).toNat).map Int.ofNat).map
                fun _ => ("instance" == "instance"))
              ++ [("instance" == "instance"), true]) =
              ([("instance" == "instance")] ++
                (((List.range' 1 (L - 1).toNat).map Int.ofNat).map
                  fun _ => ("instance" == "instance"))
                ++ [("instance" == "instance")]) ++ [true] := by simp
          rw [hshape, List.dropLast_concat] at hb
          simp only [List.mem_append, List.mem_singleton, List.mem_map] at hb
          rcases hb with (hb | ⟨n, _, hb⟩) | hb <;> first | exact hb | exact hb.symm
        · intro q hq
          rw [normKinds_nlayerGraph] at hq
          simp only [List.mem_append, List.mem_singleton, List.mem_map] at hq
          rcases hq with ⟨n, _, hq⟩ | hq <;> first | exact hq | exact hq.symm
  · exact ⟨_, rfl, by simp [convBias]⟩

/-- Witness for the normalization-selection theorem at concrete inputs. -/
theorem norm_selection_amended_witness :
    get_norm_layer true "batch" = .ok .batchC ∧
    (∃ g, build_nlayer_discriminator .channelsLast true [128, 128] 3 64 3
        "instance" false false (.lit "0.5") = .ok g ∧
      ((∀ b ∈ (convBias g).dropLast, b = ("instance" == "instance")) ∧
       (convBias g).getLast? = some true ∧
       (∀ q ∈ normKinds g, q = .instK))) := by
  refine ⟨norm_selection_amended.1 true, ⟨_, rfl, ?_⟩⟩
  exact norm_selection_amended.2.2.2.2.1 .channelsLast true [128, 128] 3 64 3
    "instance" .instK false false (.lit "0.5") _ (Or.inr ⟨rfl, rfl⟩)
    (by omega) rfl

end CycleGANNetworks
